import Mathlib

/-!
# Verification of the documentation-generation utility

A shallow embedding of the two source files of the repository:

* `.github/scripts/generate-docs.js` — a sequential pipeline that selects
  source files, calls a chat-completion API once per file, writes the
  returned Markdown next to a mirrored `Documentation/` tree, and emits a
  summary report;
* the PowerShell helper `Sync-GitRepo` — three sequential git commands
  wrapped in a `try`/`catch` that only prints errors.

JavaScript strings are modelled as Lean `String`s (lengths count characters).
Property lookup on the `prompts` object literal includes the members it
inherits from `Object.prototype`; `langMap`, only ever indexed with
`path.extname` results (empty or dot-prefixed strings), is a plain finite
lookup. The external world (filesystem reads/writes, the API, git) is passed
in as explicit oracle arguments.
-/

namespace GenerateDocs

/-- Result record pushed into the `results` list by the processing loop:
`{file, docPath?, success, error?}` (generate-docs.js lines 262, 266, 270). -/
structure ResultRecord where
  file : String
  docPath : Option String
  success : Bool
  error : Option String
deriving Repr, DecidableEq

/-- A chat message `{role, content}` as built in `analyzeCode`. -/
structure ChatMessage where
  role : String
  content : String
deriving Repr, DecidableEq

/-- The request sent by `client.chat.completions.create` in `analyzeCode`
(generate-docs.js lines 64-68): model name, messages, and the
`max_completion_tokens` ceiling. -/
structure ApiRequest where
  model : String
  messages : List ChatMessage
  maxCompletionTokens : Nat
deriving Repr, DecidableEq

/-- The extension alternatives of the regex
`/\.(js|ts|py|java|go|rs|ps1|psm1|sh|bash|cpp|c|cs|rb|php|kt|swift|yml|yaml)$/`
used at generate-docs.js lines 147 and 258, in source order. -/
def sourceExtensions : List String :=
  ["js", "ts", "py", "java", "go", "rs", "ps1", "psm1", "sh", "bash",
   "cpp", "c", "cs", "rb", "php", "kt", "swift", "yml", "yaml"]

/-- `file` ends with `"." ++ ext` (the anchored regex `\.ext$` matches). -/
def hasExt (file ext : String) : Bool :=
  ("." ++ ext).data.isSuffixOf file.data

/-- Drop the trailing `"." ++ ext` from `file`. -/
def stripExt (file ext : String) : String :=
  String.mk (file.data.take (file.data.length - (ext.length + 1)))

/-- `file.replace(/\.(js|...|yaml)$/, '.md')`: the regex is anchored at the
end of the string and no alternative contains a dot, so it matches exactly
when the string ends in `"." ++ ext` for one of the listed extensions, and
the replacement substitutes that trailing suffix with `".md"`. -/
def replaceSourceExt (file : String) : String :=
  match sourceExtensions.find? (fun ext => hasExt file ext) with
  | some ext => stripExt file ext ++ ".md"
  | none => file

/-- `path.join(a, b)` for the relative, already-normalized paths this script
produces (POSIX separator). -/
def pathJoin (a b : String) : String := a ++ "/" ++ b

/-- The documentation path derived when checking for existing documentation
(generate-docs.js line 147). -/
def docPathCheck (file : String) : String :=
  pathJoin "Documentation" (replaceSourceExt file)

/-- The documentation path derived when writing generated documentation
(generate-docs.js line 258). -/
def docPathWrite (file : String) : String :=
  pathJoin "Documentation" (replaceSourceExt file)

/-- An entry `{file, reason}` returned by `getFilesNeedingDocumentation`. -/
structure Selection where
  file : String
  reason : String
deriving Repr, DecidableEq

/-- `getFilesNeedingDocumentation` (generate-docs.js lines 136-166).
The git change set is the `Set` produced by `getChangedFiles` (modelled as a
list with membership, lines 122-134) and `docExists` is the filesystem
oracle answering the `fs.access(docPath)` probe at lines 150-155. -/
def getFilesNeedingDocumentation (forceAll : Bool) (changedFiles : List String)
    (docExists : String → Bool) (allSourceFiles : List String) : List Selection :=
  if forceAll then
    allSourceFiles.map (fun file => ⟨file, "forced"⟩)
  else
    allSourceFiles.filterMap (fun file =>
      let wasChanged := changedFiles.contains file
      let docPath := docPathCheck file
      if wasChanged || !docExists docPath then
        some ⟨file, if wasChanged then "changed" else "missing-docs"⟩
      else
        none)

/-- `DOC_TYPE` resolution (generate-docs.js line 9):
`process.env.DOC_TYPE || 'all'` — an unset or empty variable falls back to
`'all'`. -/
def docTypeFromEnv (e : Option String) : String :=
  match e with
  | none => "all"
  | some s => if s = "" then "all" else s

/-- The `api` entry of the `prompts` object (generate-docs.js lines 22-26). -/
def promptsApi : String :=
  "Analyze this code and generate comprehensive API documentation in Markdown format. Include:\n- Function/method signatures\n- Parameters and return types\n- Usage examples\n- Error handling"

/-- The `codeComments` entry of the `prompts` object (lines 28-32). -/
def promptsCodeComments : String :=
  "Add detailed inline comments to this code explaining:\n- What the code does\n- Why specific approaches were chosen\n- Any edge cases or assumptions\n- Complex logic explanations"

/-- The `readme` entry of the `prompts` object (lines 34-38). -/
def promptsReadme : String :=
  "Generate a README.md section for this code including:\n- Overview and purpose\n- Key features\n- Usage examples\n- Installation/setup if applicable"

/-- The `architecture` entry of the `prompts` object (lines 40-44). -/
def promptsArchitecture : String :=
  "Analyze this code and describe:\n- Overall architecture and design patterns\n- Component relationships\n- Data flow\n- Key design decisions"

/-- The own property names of `Object.prototype`, from which the `prompts`
object literal inherits: indexing `prompts[key]` with any of these yields a
truthy inherited value (a native function, or `Object.prototype` itself for
`__proto__`) rather than `undefined`. -/
def objectPrototypeProps : List String :=
  ["constructor", "hasOwnProperty", "isPrototypeOf", "propertyIsEnumerable",
   "toLocaleString", "toString", "valueOf",
   "__defineGetter__", "__defineSetter__", "__lookupGetter__",
   "__lookupSetter__", "__proto__"]

/-- A JavaScript value read off the `prompts` object by `prompts[key]`:
one of its own four string properties, a member inherited from
`Object.prototype`, or `undefined`. -/
inductive JSValue where
  | str (s : String)
  | inherited (name : String)
  | jsUndefined
deriving Repr, DecidableEq

/-- JavaScript truthiness of a looked-up value: the empty string and
`undefined` are falsy; every inherited `Object.prototype` member (function
or object) is truthy. -/
def JSValue.truthy : JSValue → Bool
  | .str s => s != ""
  | .inherited _ => true
  | .jsUndefined => false

/-- Template-literal interpolation `${v}` of a looked-up value: a string
interpolates to itself; an inherited native function stringifies to its
source representation and the `__proto__` object to `[object Object]`
(V8/Node behaviour); `undefined` to `"undefined"`. -/
def JSValue.interp : JSValue → String
  | .str s => s
  | .inherited name =>
      if name = "__proto__" then "[object Object]"
      else "function " ++ name ++ "() \x7b [native code] \x7d"
  | .jsUndefined => "undefined"

/-- Property lookup `prompts[key]` on the `prompts` object literal
(lines 21-45): its own four string keys first, then the prototype chain
(`Object.prototype`), and `undefined` for everything else. -/
def prompts (key : String) : JSValue :=
  if key = "api" then .str promptsApi
  else if key = "codeComments" then .str promptsCodeComments
  else if key = "readme" then .str promptsReadme
  else if key = "architecture" then .str promptsArchitecture
  else if key ∈ objectPrototypeProps then .inherited key
  else .jsUndefined

/-- The value of `prompts[docType] || prompts.api` (generate-docs.js
line 58): the looked-up value when truthy, else the api prompt. -/
def promptSelected (docType : String) : JSValue :=
  if (prompts docType).truthy then prompts docType else .str promptsApi

/-- The prompt text interpolated into the user message at line 58. -/
def promptFor (docType : String) : String :=
  (promptSelected docType).interp

/-- The `langMap` object of `getLanguage` (generate-docs.js lines 98-118). -/
def langMap : List (String × String) :=
  [(".js", "javascript"), (".ts", "typescript"), (".py", "python"),
   (".java", "java"), (".cs", "csharp"), (".go", "go"), (".rs", "rust"),
   (".cpp", "cpp"), (".c", "c"), (".rb", "ruby"), (".php", "php"),
   (".ps1", "powershell"), (".psm1", "powershell"), (".sh", "bash"),
   (".bash", "bash"), (".kt", "kotlin"), (".swift", "swift"),
   (".yml", "yaml"), (".yaml", "yaml")]

/-- `getLanguage` (generate-docs.js lines 97-120): `langMap[ext] || 'plaintext'`. -/
def getLanguage (ext : String) : String :=
  ((langMap.lookup ext).getD "plaintext")

/-- `path.extname(filePath)`: the suffix of the last path component from its
last `'.'`, empty when there is no dot or when the dot starts the component. -/
def extname (p : String) : String :=
  let base := (p.data.reverse.takeWhile (fun c => c ≠ '/')).reverse
  match base.reverse.findIdx? (fun c => c = '.') with
  | none => ""
  | some k =>
      if base.length - 1 - k = 0 then ""
      else String.mk (base.reverse.take (k + 1)).reverse

/-- The user-message string of `analyzeCode` (generate-docs.js line 58). -/
def buildUserMessage (docType filePath content : String) : String :=
  let language := getLanguage (extname filePath)
  "File: " ++ filePath ++ "\nLanguage: " ++ language ++ "\n\n" ++
    promptFor docType ++ "\n\nCode:\n```" ++ language ++ "\n" ++ content ++ "\n```"

/-- The system message of `analyzeCode` (generate-docs.js lines 52-55). -/
def systemMessage : ChatMessage :=
  ⟨"system", "You are an expert technical writer who creates clear, comprehensive documentation for code."⟩

/-- The request assembled by `analyzeCode` (generate-docs.js lines 51-68):
two messages and `max_completion_tokens: 16000`. -/
def analyzeCodeRequest (deployment docType filePath content : String) : ApiRequest :=
  { model := deployment
    messages := [systemMessage, ⟨"user", buildUserMessage docType filePath content⟩]
    maxCompletionTokens := 16000 }

/-- Outcome of the awaited API call inside `analyzeCode`: either a response
carrying the (possibly null) `message.content` of each choice, or a thrown
error caught at generate-docs.js lines 87-94. -/
inductive ApiOutcome where
  | response (choices : List (Option String))
  | thrown (msg : String)
deriving Repr, DecidableEq

/-- The value `analyzeCode` returns to its caller (generate-docs.js
lines 70-94): the first choice's content when there is one, otherwise
`null`; a thrown error is caught and also yields `null`. -/
def analyzeCodeResult : ApiOutcome → Option String
  | .response [] => none
  | .response (c :: _) => c
  | .thrown _ => none

/-- JavaScript truthiness of the nullable `documentation` string tested by
`if (documentation)` at generate-docs.js line 257: `null` and the empty
string are falsy. -/
def docTruthy : Option String → Bool
  | none => false
  | some s => s != ""

/-- Outcome of `fs.readFile(file, 'utf-8')` for one file. -/
inductive ReadOutcome where
  | ok (content : String)
  | err (msg : String)
deriving Repr, DecidableEq

/-- The external world seen by one iteration of the processing loop:
the file read, the API call outcome (consulted only if a call is made), and
whether `fs.mkdir`/`fs.writeFile` throw when writing the documentation. -/
structure FileEnv where
  read : ReadOutcome
  api : ApiOutcome
  writeErr : Option String
deriving Repr, DecidableEq

/-- What one iteration of the processing loop produced. -/
structure StepOutcome where
  apiCalls : List ApiRequest
  record : Option ResultRecord
deriving Repr, DecidableEq

/-- One iteration of the `for` loop of `generateDocumentation`
(generate-docs.js lines 231-275): read the file; `continue` without an API
call when the content has fewer than 10 or more than 200000 characters;
truncate to the first 100000 characters when longer than that; call
`analyzeCode`; when the returned documentation is truthy (non-null and
non-empty), write it and push a success record (or a failure record if the
write throws); otherwise push a failure record; a read error is caught and
pushed as a failure record. -/
def processFile (deployment docType file : String) (env : FileEnv) : StepOutcome :=
  match env.read with
  | .err msg => { apiCalls := [], record := some ⟨file, none, false, some msg⟩ }
  | .ok content =>
    if content.length < 10 then
      { apiCalls := [], record := none }
    else if content.length > 200000 then
      { apiCalls := [], record := none }
    else
      let processContent :=
        if content.length > 100000 then content.take 100000 else content
      let req := analyzeCodeRequest deployment docType file processContent
      if docTruthy (analyzeCodeResult env.api) then
        match env.writeErr with
        | none =>
            { apiCalls := [req],
              record := some ⟨file, some (docPathWrite file), true, none⟩ }
        | some msg =>
            { apiCalls := [req], record := some ⟨file, none, false, some msg⟩ }
      else
        { apiCalls := [req],
          record := some ⟨file, none, false, some "No documentation generated"⟩ }

/-- The `results` list accumulated by the whole processing loop over the
selected files, each paired with its external-world outcome. -/
def runLoop (deployment docType : String) (jobs : List (String × FileEnv)) :
    List ResultRecord :=
  jobs.filterMap (fun j => (processFile deployment docType j.1 j.2).record)

/-- The counts interpolated into the summary by `generateSummary`
(generate-docs.js lines 283-292): `results.length`,
`results.filter(r => r.success).length` and
`results.filter(r => !r.success).length`. -/
structure SummaryStats where
  total : Nat
  successful : Nat
  failed : Nat
deriving Repr, DecidableEq

/-- The statistics block of `generateSummary` (generate-docs.js lines 283-292). -/
def generateSummaryStats (results : List ResultRecord) : SummaryStats :=
  let successful := results.filter (fun r => r.success)
  let failed := results.filter (fun r => !r.success)
  { total := results.length, successful := successful.length, failed := failed.length }

/-- The full summary Markdown written to `Documentation/SUMMARY.md`
(generate-docs.js lines 283-309); the timestamp is an input. -/
def generateSummary (timestamp : String) (results : List ResultRecord) : String :=
  let successful := results.filter (fun r => r.success)
  let failed := results.filter (fun r => !r.success)
  let base :=
    "# Documentation Summary\n\nGenerated: " ++ timestamp ++ "\n\n## Statistics\n\n" ++
    "- Total files processed: " ++ toString results.length ++ "\n" ++
    "- Successfully documented: " ++ toString successful.length ++ "\n" ++
    "- Failed: " ++ toString failed.length ++ "\n\n"
  let withSuccess :=
    if successful.length > 0 then
      base ++ "## Generated Documentation\n\n" ++
        String.join (successful.map (fun r => "- " ++ r.docPath.getD "undefined" ++ "\n"))
    else base
  if failed.length > 0 then
    withSuccess ++ "\n## Failed Files\n\n" ++
      String.join (failed.map (fun r => "- " ++ r.file ++ ": " ++ r.error.getD "undefined" ++ "\n"))
  else withSuccess

end GenerateDocs

namespace SyncGitRepo

/-- A command executed by the PowerShell helper: `Set-Location`,
`Write-Host` (the colour argument is presentation-only and omitted),
or an external `git` invocation with its argument list. -/
inductive PSCommand where
  | setLocation (path : String)
  | writeHost (msg : String)
  | git (args : List String)
deriving Repr, DecidableEq

/-- The statement sequence of the `try` block of `Sync-GitRepo`
(part_000 lines 9-21), with `$Branch` already resolved. -/
def syncBody (repoPath branch : String) : List PSCommand :=
  [ .setLocation repoPath,
    .writeHost "Fetching latest changes...",
    .git ["fetch", "origin"],
    .writeHost ("Resetting to origin/" ++ branch ++ "..."),
    .git ["reset", "--hard", "origin/" ++ branch],
    .writeHost "Pulling latest changes...",
    .git ["pull", "origin", branch],
    .writeHost "Repository sync complete!" ]

/-- The `catch` block of `Sync-GitRepo` (part_000 lines 22-24): print the
error (`$_`) and nothing else. -/
def syncHandler (errMsg : String) : List PSCommand :=
  [ .writeHost ("Error syncing repository: " ++ errMsg) ]

/-- An oracle telling, for each command, whether executing it raises a
terminating error (and with what message). -/
def Oracle := PSCommand → Option String

/-- Run a command sequence: commands execute in order until one raises a
terminating error, which aborts the rest of the sequence. Returns the
commands that completed and the raised error, if any. -/
def runSeq (oracle : Oracle) : List PSCommand → List PSCommand × Option String
  | [] => ([], none)
  | c :: rest =>
    match oracle c with
    | some msg => ([], some msg)
    | none =>
      let (t, e) := runSeq oracle rest
      (c :: t, e)

/-- PowerShell `try`/`catch` over command sequences: an error raised in the
body transfers control to the handler (which receives the error message as
`$_`); an error raised inside the handler itself propagates to the caller. -/
def runTryCatch (oracle : Oracle) (body : List PSCommand)
    (handler : String → List PSCommand) : List PSCommand × Option String :=
  match runSeq oracle body with
  | (t, none) => (t, none)
  | (t, some msg) =>
    let (t2, e2) := runSeq oracle (handler msg)
    (t ++ t2, e2)

/-- `$Branch` resolution: the parameter defaults to `"master"` when the
caller does not supply it (part_000 line 5). -/
def resolveBranch (branch : Option String) : String := branch.getD "master"

/-- Execution of `Sync-GitRepo -RepoPath repoPath [-Branch branch]`
(part_000 lines 1-25): the command trace and the error escaping to the
caller, if any. -/
def syncGitRepo (oracle : Oracle) (repoPath : String) (branch : Option String) :
    List PSCommand × Option String :=
  runTryCatch oracle (syncBody repoPath (resolveBranch branch)) syncHandler

/-- The version-control (git) commands of a trace, in order. -/
def gitCommands (trace : List PSCommand) : List (List String) :=
  trace.filterMap (fun c =>
    match c with
    | .git args => some args
    | _ => none)

end SyncGitRepo

namespace GenerateDocs

/-- C3: The summary report counts are correct: for every results list the
reported total is the length of the list, the successfully-documented count
is the number of records with `success = true`, the failed count is the
number of records with `success = false` (i.e. `!r.success`), and the two
counts sum to the total. -/
theorem summary_counts_correct (results : List ResultRecord) :
    (generateSummaryStats results).total = results.length ∧
    (generateSummaryStats results).successful = results.countP (fun r => r.success) ∧
    (generateSummaryStats results).failed = results.countP (fun r => !r.success) ∧
    (generateSummaryStats results).successful + (generateSummaryStats results).failed =
      (generateSummaryStats results).total := by
  refine ⟨rfl, ?_, ?_, ?_⟩
  · simp [generateSummaryStats, List.countP_eq_length_filter]
  · simp [generateSummaryStats, List.countP_eq_length_filter]
  · simpa [generateSummaryStats] using
      (List.length_eq_length_filter_add (l := results) (fun r => r.success)).symm

/-- C10: With `FORCE_ALL === 'true'`, `getFilesNeedingDocumentation` returns
every input source file with reason `'forced'`, and its output does not
depend on the git change set or on the documentation-existence oracle. -/
theorem force_all_selects_everything (changed₁ changed₂ : List String)
    (docExists₁ docExists₂ : String → Bool) (files : List String) :
    getFilesNeedingDocumentation true changed₁ docExists₁ files =
      files.map (fun file => ⟨file, "forced"⟩) ∧
    getFilesNeedingDocumentation true changed₁ docExists₁ files =
      getFilesNeedingDocumentation true changed₂ docExists₂ files := by
  constructor <;> simp [getFilesNeedingDocumentation]

/-- No recognized extension contains a dot, so `"." ++ e1` can only be a
suffix of `"." ++ e2` when the two extensions coincide. -/
theorem dot_ext_suffix_unique :
    ∀ e1 ∈ sourceExtensions, ∀ e2 ∈ sourceExtensions,
      ('.' :: e1.data) <:+ ('.' :: e2.data) → e1 = e2 := by decide

/-- A path ends in at most one recognized `"." ++ ext` suffix. -/
theorem hasExt_unique (file e1 e2 : String) (h1 : e1 ∈ sourceExtensions)
    (h2 : e2 ∈ sourceExtensions) (hs1 : hasExt file e1 = true)
    (hs2 : hasExt file e2 = true) : e1 = e2 := by
  rw [hasExt, List.isSuffixOf_iff_suffix] at hs1 hs2
  have hd1 : ("." ++ e1).data = '.' :: e1.data := rfl
  have hd2 : ("." ++ e2).data = '.' :: e2.data := rfl
  rw [hd1] at hs1
  rw [hd2] at hs2
  rcases List.suffix_or_suffix_of_suffix hs1 hs2 with h | h
  · exact dot_ext_suffix_unique e1 h1 e2 h2 h
  · exact (dot_ext_suffix_unique e2 h2 e1 h1 h).symm

/-- C4: For every source path ending in a recognized extension, the derived
documentation path is `'Documentation/'` prefixed to the path with its
trailing extension replaced by `'.md'`, and the existence check (line 147)
and the write (line 258) use the same derivation. -/
theorem docPath_derivation (file ext : String) (hmem : ext ∈ sourceExtensions)
    (hsuf : hasExt file ext = true) :
    docPathCheck file = "Documentation/" ++ (stripExt file ext ++ ".md") ∧
    docPathCheck file = docPathWrite file := by
  refine ⟨?_, rfl⟩
  have hfind : (sourceExtensions.find? (fun e => hasExt file e)).isSome := by
    rw [List.find?_isSome]
    exact ⟨ext, hmem, hsuf⟩
  obtain ⟨e, he⟩ := Option.isSome_iff_exists.mp hfind
  have hpe : hasExt file e = true := List.find?_some he
  have hme : e ∈ sourceExtensions := List.mem_of_find?_eq_some he
  have hee : e = ext := hasExt_unique file e ext hme hmem hpe hsuf
  subst hee
  rw [docPathCheck, pathJoin, replaceSourceExt, he]
  rfl

/-- Witness for `docPath_derivation` on `src/app.cs` (exercising the
`c`/`cs` regex alternation). -/
theorem docPath_derivation_witness :
    ("cs" ∈ sourceExtensions) ∧ hasExt "src/app.cs" "cs" = true ∧
    (docPathCheck "src/app.cs" =
        "Documentation/" ++ (stripExt "src/app.cs" "cs" ++ ".md") ∧
      docPathCheck "src/app.cs" = docPathWrite "src/app.cs") ∧
    docPathCheck "src/app.cs" = "Documentation/src/app.md" :=
  ⟨by decide, by decide,
    docPath_derivation "src/app.cs" "cs" (by decide) (by decide), by decide⟩

/-- C5: One loop iteration issues no API call exactly when the file content
has fewer than 10 or more than 200000 characters; every other selected file
whose read succeeds triggers exactly one API call. -/
theorem api_call_iff_within_thresholds (deployment docType file c : String)
    (env : FileEnv) (hr : env.read = ReadOutcome.ok c) :
    (processFile deployment docType file env).apiCalls.length =
      if c.length < 10 ∨ 200000 < c.length then 0 else 1 := by
  obtain ⟨r, api, w⟩ := env
  simp only at hr
  subst hr
  by_cases h1 : c.length < 10
  · simp [processFile, h1]
  · by_cases h2 : 200000 < c.length
    · simp [processFile, h1, h2]
    · cases hda : docTruthy (analyzeCodeResult api) <;> cases w <;>
        simp [processFile, h1, h2, hda]

/-- Witness for `api_call_iff_within_thresholds` on a 12-character file. -/
theorem api_call_iff_within_thresholds_witness :
    (FileEnv.mk (ReadOutcome.ok "const x = 1;") (ApiOutcome.response []) none).read =
      ReadOutcome.ok "const x = 1;" ∧
    (processFile "gpt-4" "all" "src/app.js"
        (FileEnv.mk (ReadOutcome.ok "const x = 1;") (ApiOutcome.response []) none)).apiCalls.length =
      if ("const x = 1;" : String).length < 10 ∨ 200000 < ("const x = 1;" : String).length
      then 0 else 1 :=
  ⟨rfl, api_call_iff_within_thresholds "gpt-4" "all" "src/app.js" "const x = 1;" _ rfl⟩

/-- C6: Every API call carries `max_completion_tokens = 16000`, and the
content placed in the prompt is the full file content when it has at most
100000 characters, and exactly its first 100000 characters otherwise. -/
theorem api_request_ceilings (deployment docType file c : String)
    (env : FileEnv) (hr : env.read = ReadOutcome.ok c)
    (hlo : 10 ≤ c.length) (hhi : c.length ≤ 200000) :
    (processFile deployment docType file env).apiCalls =
      [analyzeCodeRequest deployment docType file
        (if 100000 < c.length then c.take 100000 else c)] ∧
    ∀ req ∈ (processFile deployment docType file env).apiCalls,
      req.maxCompletionTokens = 16000 := by
  obtain ⟨r, api, w⟩ := env
  simp only at hr
  subst hr
  have h1 : ¬ c.length < 10 := by omega
  have h2 : ¬ 200000 < c.length := by omega
  have hcalls : (processFile deployment docType file
      (FileEnv.mk (ReadOutcome.ok c) api w)).apiCalls =
      [analyzeCodeRequest deployment docType file
        (if 100000 < c.length then c.take 100000 else c)] := by
    cases hda : docTruthy (analyzeCodeResult api) <;> cases w <;>
      simp [processFile, h1, h2, hda]
  refine ⟨hcalls, ?_⟩
  intro req hreq
  rw [hcalls] at hreq
  simp at hreq
  rw [hreq]
  rfl

/-- Witness for `api_request_ceilings` on a 12-character file. -/
theorem api_request_ceilings_witness :
    (FileEnv.mk (ReadOutcome.ok "const x = 1;") (ApiOutcome.response [some "# D"]) none).read =
      ReadOutcome.ok "const x = 1;" ∧
    10 ≤ ("const x = 1;" : String).length ∧
    ("const x = 1;" : String).length ≤ 200000 ∧
    ((processFile "gpt-4" "all" "src/app.js"
        (FileEnv.mk (ReadOutcome.ok "const x = 1;") (ApiOutcome.response [some "# D"]) none)).apiCalls =
      [analyzeCodeRequest "gpt-4" "all" "src/app.js"
        (if 100000 < ("const x = 1;" : String).length
         then ("const x = 1;" : String).take 100000 else "const x = 1;")] ∧
    ∀ req ∈ (processFile "gpt-4" "all" "src/app.js"
        (FileEnv.mk (ReadOutcome.ok "const x = 1;") (ApiOutcome.response [some "# D"]) none)).apiCalls,
      req.maxCompletionTokens = 16000) :=
  ⟨rfl, by decide, by decide,
    api_request_ceilings "gpt-4" "all" "src/app.js" "const x = 1;" _ rfl
      (by decide) (by decide)⟩

/-- C1 (counterexample): a selected file whose content is shorter than 10
characters is skipped by `continue` and leaves no record at all in the
results list, so its failure is not recorded there. -/
theorem undersized_file_missing_from_results :
    ("hi" : String).length < 10 ∧
    runLoop "gpt-4" "all"
      [("tiny.js",
        FileEnv.mk (ReadOutcome.ok "hi") (ApiOutcome.response [some "# Docs"]) none)] =
      [] := by
  constructor
  · decide
  · rfl

/-- C1 (amended): a file whose content is below the 10-character minimum or
above the 200000-character maximum contributes no record to the results
list, while an empty API response and a failed read are recorded as
failures. -/
theorem skip_thresholds_not_recorded (deployment docType file : String) (env : FileEnv) :
    (∀ c, env.read = ReadOutcome.ok c → c.length < 10 ∨ 200000 < c.length →
      (processFile deployment docType file env).record = none) ∧
    (∀ c, env.read = ReadOutcome.ok c → 10 ≤ c.length → c.length ≤ 200000 →
      analyzeCodeResult env.api = none →
      (processFile deployment docType file env).record =
        some ⟨file, none, false, some "No documentation generated"⟩) ∧
    (∀ msg, env.read = ReadOutcome.err msg →
      (processFile deployment docType file env).record =
        some ⟨file, none, false, some msg⟩) := by
  obtain ⟨r, api, w⟩ := env
  refine ⟨?_, ?_, ?_⟩
  · intro c hr hlen
    simp only at hr
    subst hr
    rcases hlen with h1 | h2
    · simp [processFile, h1]
    · by_cases h1 : c.length < 10
      · simp [processFile, h1]
      · simp [processFile, h1, h2]
  · intro c hr hlo hhi hapi
    simp only at hr
    subst hr
    have h1 : ¬ c.length < 10 := by omega
    have h2 : ¬ 200000 < c.length := by omega
    simp only at hapi
    simp [processFile, h1, h2, hapi, docTruthy]
  · intro msg hr
    simp only at hr
    subst hr
    simp [processFile]

/-- Witness for `skip_thresholds_not_recorded` on a 2-character file. -/
theorem skip_thresholds_not_recorded_witness :
    (FileEnv.mk (ReadOutcome.ok "hi") (ApiOutcome.response []) none).read =
      ReadOutcome.ok "hi" ∧
    (("hi" : String).length < 10 ∨ 200000 < ("hi" : String).length) ∧
    (processFile "gpt-4" "all" "tiny.js"
      (FileEnv.mk (ReadOutcome.ok "hi") (ApiOutcome.response []) none)).record = none :=
  ⟨rfl, Or.inl (by decide),
    (skip_thresholds_not_recorded "gpt-4" "all" "tiny.js"
      (FileEnv.mk (ReadOutcome.ok "hi") (ApiOutcome.response []) none)).1
      "hi" rfl (Or.inl (by decide))⟩

/-- C2: With force mode off, `getFilesNeedingDocumentation` selects a file
iff it is in the git change set or its derived documentation file does not
exist; a selected file carries reason `'changed'` exactly when it was
changed and `'missing-docs'` otherwise. -/
theorem selection_iff_changed_or_missing (changed : List String)
    (docExists : String → Bool) (files : List String) (file : String) :
    ((∃ reason, Selection.mk file reason ∈
        getFilesNeedingDocumentation false changed docExists files) ↔
      file ∈ files ∧ (file ∈ changed ∨ docExists (docPathCheck file) = false)) ∧
    (Selection.mk file "changed" ∈
        getFilesNeedingDocumentation false changed docExists files ↔
      file ∈ files ∧ file ∈ changed) ∧
    (Selection.mk file "missing-docs" ∈
        getFilesNeedingDocumentation false changed docExists files ↔
      file ∈ files ∧ file ∉ changed ∧ docExists (docPathCheck file) = false) := by
  have hgf : getFilesNeedingDocumentation false changed docExists files =
      files.filterMap (fun a =>
        if changed.contains a || !docExists (docPathCheck a) then
          some ⟨a, if changed.contains a then "changed" else "missing-docs"⟩
        else none) := rfl
  have key : ∀ (a r : String),
      (if changed.contains a || !docExists (docPathCheck a) then
        some (Selection.mk a (if changed.contains a then "changed" else "missing-docs"))
      else none) = some (Selection.mk file r) ↔
      (a = file ∧ ((a ∈ changed ∧ r = "changed") ∨
        (a ∉ changed ∧ docExists (docPathCheck a) = false ∧ r = "missing-docs"))) := by
    intro a r
    by_cases hc : a ∈ changed <;> by_cases hd : docExists (docPathCheck a) <;>
      simp [hc, hd, Selection.mk.injEq] <;> aesop
  constructor
  · constructor
    · rintro ⟨r, hr⟩
      rw [hgf, List.mem_filterMap] at hr
      obtain ⟨a, ha, hfa⟩ := hr
      rw [key] at hfa
      obtain ⟨rfl, hcase⟩ := hfa
      refine ⟨ha, ?_⟩
      rcases hcase with ⟨hc, _⟩ | ⟨_, hd, _⟩
      · exact Or.inl hc
      · exact Or.inr hd
    · rintro ⟨hmem, hcond⟩
      by_cases hc : file ∈ changed
      · exact ⟨"changed", by
          rw [hgf, List.mem_filterMap]
          exact ⟨file, hmem, (key file "changed").mpr ⟨rfl, Or.inl ⟨hc, rfl⟩⟩⟩⟩
      · have hd : docExists (docPathCheck file) = false := by
          rcases hcond with h | h
          · exact absurd h hc
          · exact h
        exact ⟨"missing-docs", by
          rw [hgf, List.mem_filterMap]
          exact ⟨file, hmem, (key file "missing-docs").mpr ⟨rfl, Or.inr ⟨hc, hd, rfl⟩⟩⟩⟩
  constructor
  · rw [hgf, List.mem_filterMap]
    constructor
    · rintro ⟨a, ha, hfa⟩
      rw [key] at hfa
      obtain ⟨rfl, hcase⟩ := hfa
      rcases hcase with ⟨hc, _⟩ | ⟨_, _, hr⟩
      · exact ⟨ha, hc⟩
      · simp at hr
    · rintro ⟨hmem, hc⟩
      exact ⟨file, hmem, (key file "changed").mpr ⟨rfl, Or.inl ⟨hc, rfl⟩⟩⟩
  · rw [hgf, List.mem_filterMap]
    constructor
    · rintro ⟨a, ha, hfa⟩
      rw [key] at hfa
      obtain ⟨rfl, hcase⟩ := hfa
      rcases hcase with ⟨_, hr⟩ | ⟨hc, hd, _⟩
      · simp at hr
      · exact ⟨ha, hc, hd⟩
    · rintro ⟨hmem, hc, hd⟩
      exact ⟨file, hmem,
        (key file "missing-docs").mpr ⟨rfl, Or.inr ⟨hc, hd, rfl⟩⟩⟩

/-- C9 (counterexample): at the selector `'toString'` — which is none of the
four `prompts` keys — `prompts[docType]` resolves through the prototype
chain to the inherited truthy `toString` function, the `|| prompts.api`
fallback does not fire, and the prompt interpolated into the user message is
not the api prompt: the built request differs from the one built for
`'api'`. -/
theorem toString_selector_not_api_prompt :
    (("toString" : String) ≠ "api" ∧ ("toString" : String) ≠ "codeComments" ∧
      ("toString" : String) ≠ "readme" ∧ ("toString" : String) ≠ "architecture") ∧
    promptSelected "toString" = JSValue.inherited "toString" ∧
    promptFor "toString" ≠ promptsApi ∧
    analyzeCodeRequest "gpt-4" "toString" "src/app.js" "const x = 1;" ≠
      analyzeCodeRequest "gpt-4" "api" "src/app.js" "const x = 1;" := by
  refine ⟨by decide, by decide, by decide, ?_⟩
  decide

/-- C9 (amended): for every documentation-type selector that is neither one
of the four `prompts` keys nor a property inherited from
`Object.prototype` — including the default `'all'` used when `DOC_TYPE` is
unset — `analyzeCode` builds exactly the request it would build for the
`'api'` documentation prompt. -/
theorem unknown_docType_uses_api_prompt (deployment filePath content d : String)
    (h : d ≠ "api" ∧ d ≠ "codeComments" ∧ d ≠ "readme" ∧ d ≠ "architecture")
    (hp : d ∉ objectPrototypeProps) :
    analyzeCodeRequest deployment d filePath content =
      analyzeCodeRequest deployment "api" filePath content ∧
    docTypeFromEnv none = "all" ∧
    analyzeCodeRequest deployment (docTypeFromEnv none) filePath content =
      analyzeCodeRequest deployment "api" filePath content := by
  obtain ⟨h1, h2, h3, h4⟩ := h
  have hpd : prompts d = JSValue.jsUndefined := by
    rw [prompts, if_neg h1, if_neg h2, if_neg h3, if_neg h4, if_neg hp]
  have hd : promptFor d = promptsApi := by
    rw [promptFor, promptSelected, hpd]
    rfl
  have hapi : promptFor "api" = promptsApi := rfl
  have hall : promptFor (docTypeFromEnv none) = promptsApi := rfl
  refine ⟨?_, rfl, ?_⟩
  · simp [analyzeCodeRequest, buildUserMessage, hd, hapi]
  · simp [analyzeCodeRequest, buildUserMessage, hall, hapi]

/-- Witness for `unknown_docType_uses_api_prompt` at the default selector
`'all'`. -/
theorem unknown_docType_uses_api_prompt_witness :
    (("all" : String) ≠ "api" ∧ ("all" : String) ≠ "codeComments" ∧
      ("all" : String) ≠ "readme" ∧ ("all" : String) ≠ "architecture") ∧
    ("all" : String) ∉ objectPrototypeProps ∧
    (analyzeCodeRequest "gpt-4" "all" "src/app.js" "const x = 1;" =
      analyzeCodeRequest "gpt-4" "api" "src/app.js" "const x = 1;" ∧
    docTypeFromEnv none = "all" ∧
    analyzeCodeRequest "gpt-4" (docTypeFromEnv none) "src/app.js" "const x = 1;" =
      analyzeCodeRequest "gpt-4" "api" "src/app.js" "const x = 1;") :=
  ⟨by decide, by decide,
    unknown_docType_uses_api_prompt "gpt-4" "src/app.js" "const x = 1;" "all"
      (by decide) (by decide)⟩

end GenerateDocs

namespace SyncGitRepo

/-- An execution in which no command raises an error. -/
def noFailOracle : Oracle := fun _ => none

/-- An execution in which every external `git` command raises a terminating
error (e.g. the directory is not a repository) and nothing else fails. -/
def gitFailOracle : Oracle := fun c =>
  match c with
  | PSCommand.git _ => some "fatal: not a git repository"
  | _ => none

/-- C7: In an error-free run, `Sync-GitRepo` issues exactly three git
commands, in order: `git fetch origin`, `git reset --hard origin/<Branch>`,
`git pull origin <Branch>`, with `<Branch>` defaulting to `master` when the
parameter is not supplied. -/
theorem three_git_commands (oracle : Oracle) (repoPath : String)
    (hok : ∀ c, oracle c = none) :
    gitCommands (syncGitRepo oracle repoPath none).1 =
      [["fetch", "origin"],
       ["reset", "--hard", "origin/master"],
       ["pull", "origin", "master"]] ∧
    ∀ branch, gitCommands (syncGitRepo oracle repoPath (some branch)).1 =
      [["fetch", "origin"],
       ["reset", "--hard", "origin/" ++ branch],
       ["pull", "origin", branch]] := by
  constructor
  · simp [syncGitRepo, runTryCatch, runSeq, syncBody, hok, gitCommands, resolveBranch]
  · intro branch
    simp [syncGitRepo, runTryCatch, runSeq, syncBody, hok, gitCommands, resolveBranch]

/-- Witness for `three_git_commands`: a run of
`Sync-GitRepo -RepoPath 'C:/repo'` with no failing command. -/
theorem three_git_commands_witness :
    (∀ c, noFailOracle c = none) ∧
    (gitCommands (syncGitRepo noFailOracle "C:/repo" none).1 =
      [["fetch", "origin"],
       ["reset", "--hard", "origin/master"],
       ["pull", "origin", "master"]] ∧
    ∀ branch, gitCommands (syncGitRepo noFailOracle "C:/repo" (some branch)).1 =
      [["fetch", "origin"],
       ["reset", "--hard", "origin/" ++ branch],
       ["pull", "origin", branch]]) :=
  ⟨fun _ => rfl, three_git_commands noFailOracle "C:/repo" (fun _ => rfl)⟩

/-- C8: `Sync-GitRepo` propagates no error to its caller: whatever commands
fail, the escaping error is `none` (granted only that printing the error
message itself succeeds), and the `catch` block performs exactly one
`Write-Host` of the error and nothing else. -/
theorem errors_swallowed (oracle : Oracle) (repoPath : String)
    (branch : Option String)
    (hW : ∀ msg, oracle (PSCommand.writeHost msg) = none) :
    (syncGitRepo oracle repoPath branch).2 = none ∧
    ∀ msg, runSeq oracle (syncHandler msg) =
      ([PSCommand.writeHost ("Error syncing repository: " ++ msg)], none) := by
  have hh : ∀ msg, runSeq oracle (syncHandler msg) =
      ([PSCommand.writeHost ("Error syncing repository: " ++ msg)], none) := by
    intro msg
    simp [runSeq, syncHandler, hW]
  refine ⟨?_, hh⟩
  rw [syncGitRepo, runTryCatch]
  rcases h : runSeq oracle (syncBody repoPath (resolveBranch branch)) with ⟨t, e⟩
  cases e with
  | none => rfl
  | some msg => simp [hh msg]

/-- Witness for `errors_swallowed`: every git command fails, yet the call
returns normally after printing the error. -/
theorem errors_swallowed_witness :
    (∀ msg, gitFailOracle (PSCommand.writeHost msg) = none) ∧
    ((syncGitRepo gitFailOracle "C:/repo" (some "main")).2 = none ∧
    ∀ msg, runSeq gitFailOracle (syncHandler msg) =
      ([PSCommand.writeHost ("Error syncing repository: " ++ msg)], none)) :=
  ⟨fun _ => rfl,
    errors_swallowed gitFailOracle "C:/repo" (some "main") (fun _ => rfl)⟩

end SyncGitRepo
